import Mathlib

/-!
Shallow embedding of `src/autogen/autogen_simple_demo.py`
(`SimpleInterviewPlatformWorkflow`), a five-phase sequential prompt-chaining
script, together with theorems checking the specification's claims.

Modelling conventions:
* the remote completion endpoint (`client.chat.completions.create` followed by
  `response.choices[0].message.content`) is an oracle `ChatRequest → Except String String`;
  `Except.error e` models the call raising a Python exception whose `str` is `e`;
* `print(x)` is modelled by appending the printed argument `x` to a trace of
  printed strings (the newline `print` itself adds is left implicit);
* writing the output file is modelled by appending `(name, contents)` to a trace
  of written files, `contents` being the concatenation of all `f.write` arguments;
* `self.outputs` (a Python dict with string keys) is an association list with
  Python's assignment semantics (`dictSet`); a missing-key access raises
  `KeyError(k)`, whose `str(e)` is the key in quotes, modelled as an
  `Except.error` carrying the quoted key;
* `datetime.now().strftime(...)` results are abstract strings supplied by a
  `Clock`, one per call site.
-/

namespace AutogenDemo

/-- A character repeated `n` times, modelling Python string repetition such as `"="*80`. -/
def repChar (n : Nat) (c : Char) : String := String.mk (List.replicate n c)

/-- The banner `"="*80`. -/
def eq80 : String := repChar 80 '='

/-- The banner `"-"*80`. -/
def dash80 : String := repChar 80 '-'

/-- One role-tagged chat message, an element of the `messages` list passed to
`client.chat.completions.create`. -/
structure Message where
  role : String
  content : String
  deriving DecidableEq

/-- The argument record of one `client.chat.completions.create` call. -/
structure ChatRequest where
  model : String
  temperature : Rat
  max_tokens : Nat
  messages : List Message
  deriving DecidableEq

/-- Modelled from the spec: the static configuration object `autogen.config.Config`
(its module is not among the sources; the spec describes it as "a static
configuration object supplying {API key, API base URL, model identifier,
temperature, max output tokens, verbosity flag}; validated once for presence").
`validate_setup` is the boolean result of `Config.validate_setup()`. -/
structure Config where
  validate_setup : Bool
  API_KEY : String
  API_BASE : String
  OPENAI_MODEL : String
  DEFAULT_MODEL : String
  USE_GROQ : Bool
  VERBOSE : Bool
  AGENT_TEMPERATURE : Rat
  AGENT_MAX_TOKENS : Nat

/-- The already-formatted timestamps returned by the four `datetime.now().strftime`
call sites: the start banner, the output-file name, the file header, and the end
banner. -/
structure Clock where
  startTime : String
  fileStamp : String
  generated : String
  endTime : String

/-- The remote completion service: maps a request to the reply text, or to the
string rendering of a raised exception. -/
abbrev Oracle := ChatRequest → Except String String

/-- The `self.outputs` dict: insertion-ordered association list from phase name
to generated text. -/
abbrev Outputs := List (String × String)

/-- Python dict assignment `d[k] = v`: replace the value in place if the key is
present, otherwise append the pair at the end. -/
def dictSet : Outputs → String → String → Outputs
  | [], k, v => [(k, v)]
  | (k', v') :: rest, k, v =>
    if k' == k then (k, v) :: rest else (k', v') :: dictSet rest k v

/-- Observable effects of a (partial) execution: the chat requests issued, the
arguments passed to `print`, and the files written as (name, contents). -/
structure Trace where
  calls : List ChatRequest
  prints : List String
  files : List (String × String)
  deriving DecidableEq

/-- Concatenation of two effect traces, in execution order. -/
def Trace.app (t u : Trace) : Trace :=
  { calls := t.calls ++ u.calls, prints := t.prints ++ u.prints, files := t.files ++ u.files }

/-- The `system_prompt` of `phase_research`. -/
def researchSystemPrompt : String :=
  "You are a market research analyst. Provide a brief analysis of\n3 competitors in AI interview platforms (HireVue, Pymetrics, Codility).\nList their key features and identify market gaps in 150 words."

/-- The `user_message` of `phase_research`. -/
def researchUserMessage : String :=
  "Analyze the current market for AI-powered interview platforms."

/-- The `system_prompt` of `phase_analysis`. -/
def analysisSystemPrompt : String :=
  "You are a product analyst. Based on the market research provided,\nidentify 3 key market opportunities or gaps for a new AI interview platform.\nBe concise in 150 words."

/-- The `user_message` of `phase_analysis`, an f-string interpolating
`self.outputs['research']`. -/
def analysisUserMessage (research : String) : String :=
  "Market research findings:\n" ++ research ++ "\n\nNow identify market opportunities and gaps."

/-- The `system_prompt` of `phase_blueprint`. -/
def blueprintSystemPrompt : String :=
  "You are a product designer. Based on the market analysis and opportunities,\ncreate a brief product blueprint including:\n- Key features (3-5)\n- User journey (2-3 steps)\nKeep it concise - 150 words."

/-- The `user_message` of `phase_blueprint`, interpolating `self.outputs['analysis']`. -/
def blueprintUserMessage (analysis : String) : String :=
  "Market Analysis:\n" ++ analysis ++ "\n\nCreate a product blueprint for our platform."

/-- The `system_prompt` of `phase_launch`. -/
def launchSystemPrompt : String :=
  "You are a go-to-market strategist. Using the product blueprint,\noutline a concise launch plan including marketing channels, launch milestones,\nsuccess metrics, and partnerships in under 180 words."

/-- The `user_message` of `phase_launch`, interpolating `self.outputs['blueprint']`. -/
def launchUserMessage (blueprint : String) : String :=
  "Product Blueprint:\n" ++ blueprint ++ "\n\nCreate a go-to-market plan for launch."

/-- The `system_prompt` of `phase_review`. -/
def reviewSystemPrompt : String :=
  "You are a product reviewer and strategist. Review the product blueprint\nand provide 3 strategic recommendations for success.\nBe concise - 150 words."

/-- The `user_message` of `phase_review`, interpolating both
`self.outputs['blueprint']` and `self.outputs['launch']`. -/
def reviewUserMessage (blueprint launch : String) : String :=
  "Product Blueprint:\n" ++ blueprint ++ "\n\nLaunch Plan:\n" ++ launch ++ "\n\nProvide strategic review and recommendations."

/-- The shared shape of every `client.chat.completions.create` call in the script:
`model=self.model` (set to `Config.OPENAI_MODEL` in `__init__`),
`temperature=Config.AGENT_TEMPERATURE`, `max_tokens=Config.AGENT_MAX_TOKENS`,
and a two-element messages list tagged system then user. -/
def mkRequest (cfg : Config) (system_prompt user_message : String) : ChatRequest :=
  { model := cfg.OPENAI_MODEL
    temperature := cfg.AGENT_TEMPERATURE
    max_tokens := cfg.AGENT_MAX_TOKENS
    messages := [{ role := "system", content := system_prompt },
                 { role := "user", content := user_message }] }

/-- The request issued by `phase_research`. -/
def reqResearch (cfg : Config) : ChatRequest :=
  mkRequest cfg researchSystemPrompt researchUserMessage

/-- The request issued by `phase_analysis`, given the stored research output. -/
def reqAnalysis (cfg : Config) (research : String) : ChatRequest :=
  mkRequest cfg analysisSystemPrompt (analysisUserMessage research)

/-- The request issued by `phase_blueprint`, given the stored analysis output. -/
def reqBlueprint (cfg : Config) (analysis : String) : ChatRequest :=
  mkRequest cfg blueprintSystemPrompt (blueprintUserMessage analysis)

/-- The request issued by `phase_launch`, given the stored blueprint output. -/
def reqLaunch (cfg : Config) (blueprint : String) : ChatRequest :=
  mkRequest cfg launchSystemPrompt (launchUserMessage blueprint)

/-- The request issued by `phase_review`, given the stored blueprint and launch outputs. -/
def reqReview (cfg : Config) (blueprint launch : String) : ChatRequest :=
  mkRequest cfg reviewSystemPrompt (reviewUserMessage blueprint launch)

/-- The four lines `phase_research` prints before its remote call. -/
def researchBanner : List String :=
  ["\n" ++ eq80, "PHASE 1: MARKET RESEARCH", eq80,
   "[ResearchAgent is analyzing the market...]"]

/-- Phase 1: Market Research. Prints its banner, issues its request, and on
success stores the reply under key "research" and prints it. -/
def phase_research (cfg : Config) (oracle : Oracle) (outputs : Outputs) :
    Trace × Except String Outputs :=
  let req := reqResearch cfg
  match oracle req with
  | Except.error e =>
    ({ calls := [req], prints := researchBanner, files := [] }, Except.error e)
  | Except.ok content =>
    ({ calls := [req],
       prints := researchBanner ++ ["\n[ResearchAgent Output]", content],
       files := [] },
     Except.ok (dictSet outputs "research" content))

/-- The four lines `phase_analysis` prints before building its user message. -/
def analysisBanner : List String :=
  ["\n" ++ eq80, "PHASE 2: OPPORTUNITY ANALYSIS", eq80,
   "[AnalysisAgent is identifying opportunities...]"]

/-- Phase 2: Opportunity Analysis. Reads `self.outputs['research']` (a missing
key raises `KeyError`), issues its request, and on success stores the reply
under key "analysis" and prints it. -/
def phase_analysis (cfg : Config) (oracle : Oracle) (outputs : Outputs) :
    Trace × Except String Outputs :=
  match outputs.lookup "research" with
  | none =>
    ({ calls := [], prints := analysisBanner, files := [] },
     Except.error "\x27research\x27")
  | some research =>
    let req := reqAnalysis cfg research
    match oracle req with
    | Except.error e =>
      ({ calls := [req], prints := analysisBanner, files := [] }, Except.error e)
    | Except.ok content =>
      ({ calls := [req],
         prints := analysisBanner ++ ["\n[AnalysisAgent Output]", content],
         files := [] },
       Except.ok (dictSet outputs "analysis" content))

/-- The four lines `phase_blueprint` prints before building its user message. -/
def blueprintBanner : List String :=
  ["\n" ++ eq80, "PHASE 3: PRODUCT BLUEPRINT", eq80,
   "[BlueprintAgent is designing the product...]"]

/-- Phase 3: Product Blueprint. Reads `self.outputs['analysis']`, issues its
request, and on success stores the reply under key "blueprint" and prints it. -/
def phase_blueprint (cfg : Config) (oracle : Oracle) (outputs : Outputs) :
    Trace × Except String Outputs :=
  match outputs.lookup "analysis" with
  | none =>
    ({ calls := [], prints := blueprintBanner, files := [] },
     Except.error "\x27analysis\x27")
  | some analysis =>
    let req := reqBlueprint cfg analysis
    match oracle req with
    | Except.error e =>
      ({ calls := [req], prints := blueprintBanner, files := [] }, Except.error e)
    | Except.ok content =>
      ({ calls := [req],
         prints := blueprintBanner ++ ["\n[BlueprintAgent Output]", content],
         files := [] },
       Except.ok (dictSet outputs "blueprint" content))

/-- The four lines `phase_launch` prints before building its user message. -/
def launchBanner : List String :=
  ["\n" ++ eq80, "PHASE 4: GO-TO-MARKET STRATEGY", eq80,
   "[LaunchAgent is planning the go-to-market strategy...]"]

/-- Phase 4: Go-to-Market Strategy. Reads `self.outputs['blueprint']`, issues
its request, and on success stores the reply under key "launch" and prints it. -/
def phase_launch (cfg : Config) (oracle : Oracle) (outputs : Outputs) :
    Trace × Except String Outputs :=
  match outputs.lookup "blueprint" with
  | none =>
    ({ calls := [], prints := launchBanner, files := [] },
     Except.error "\x27blueprint\x27")
  | some blueprint =>
    let req := reqLaunch cfg blueprint
    match oracle req with
    | Except.error e =>
      ({ calls := [req], prints := launchBanner, files := [] }, Except.error e)
    | Except.ok content =>
      ({ calls := [req],
         prints := launchBanner ++ ["\n[LaunchAgent Output]", content],
         files := [] },
       Except.ok (dictSet outputs "launch" content))

/-- The four lines `phase_review` prints before building its user message. -/
def reviewBanner : List String :=
  ["\n" ++ eq80, "PHASE 5: STRATEGIC REVIEW", eq80,
   "[ReviewerAgent is providing recommendations...]"]

/-- Phase 5: Strategic Review. Reads `self.outputs['blueprint']` and
`self.outputs['launch']`, issues its request, and on success stores the reply
under key "review" and prints it. -/
def phase_review (cfg : Config) (oracle : Oracle) (outputs : Outputs) :
    Trace × Except String Outputs :=
  match outputs.lookup "blueprint" with
  | none =>
    ({ calls := [], prints := reviewBanner, files := [] },
     Except.error "\x27blueprint\x27")
  | some blueprint =>
    match outputs.lookup "launch" with
    | none =>
      ({ calls := [], prints := reviewBanner, files := [] },
       Except.error "\x27launch\x27")
    | some launch =>
      let req := reqReview cfg blueprint launch
      match oracle req with
      | Except.error e =>
        ({ calls := [req], prints := reviewBanner, files := [] }, Except.error e)
      | Except.ok content =>
        ({ calls := [req],
           prints := reviewBanner ++ ["\n[ReviewerAgent Output]", content],
           files := [] },
         Except.ok (dictSet outputs "review" content))

/-- The fixed narrative string printed by `print_summary`. -/
def summaryNarrative : String :=
  "\nThis workflow demonstrated a 5-agent collaboration:\n1. ResearchAgent - Analyzed the market\n2. AnalysisAgent - Identified opportunities\n3. BlueprintAgent - Designed the product\n4. LaunchAgent - Built the go-to-market strategy\n5. ReviewerAgent - Provided strategic recommendations\n\nEach agent received context from the previous agent\x27s output,\ndemonstrating the sequential workflow pattern of AutoGen.\n"

/-- The lines `print_summary` prints before the per-phase full outputs. -/
def summaryHeaderPrints : List String :=
  ["\n" ++ eq80, "FINAL SUMMARY", eq80, summaryNarrative,
   "\n" ++ eq80, "FULL RESULTS - ALL PHASES", eq80]

/-- One console "Full Output" block of `print_summary`: dashed banner, title,
dashed banner, stored text. -/
def consoleSection (title body : String) : List String :=
  ["\n" ++ dash80, title, dash80, body]

/-- One section of the output file: the concatenation of the four `f.write`
calls for a phase (banner of dashes, title, banner of dashes, full text). -/
def fileSection (title body : String) : String :=
  "\n" ++ dash80 ++ "\n" ++ title ++ "\n" ++ dash80 ++ "\n" ++ body ++ "\n"

/-- The fixed header of the output file: title banner, generation timestamp,
model name. -/
def fileHeader (cfg : Config) (clock : Clock) : String :=
  eq80 ++ "\n" ++ "AUTOGEN INTERVIEW PLATFORM WORKFLOW - FULL RESULTS\n" ++ eq80 ++ "\n" ++
  "Generated: " ++ clock.generated ++ "\n" ++ "Model: " ++ cfg.OPENAI_MODEL ++ "\n\n"

/-- The full contents of the output file, as the concatenation of every
`f.write` argument in `print_summary`, in order. -/
def fileContents (cfg : Config) (clock : Clock)
    (research analysis blueprint launch review : String) : String :=
  fileHeader cfg clock ++
  fileSection "PHASE 1: MARKET RESEARCH" research ++
  fileSection "PHASE 2: OPPORTUNITY ANALYSIS" analysis ++
  fileSection "PHASE 3: PRODUCT BLUEPRINT" blueprint ++
  fileSection "PHASE 4: GO-TO-MARKET STRATEGY" launch ++
  fileSection "PHASE 5: STRATEGIC REVIEW" review

/-- The name of the output file, `workflow_outputs_<timestamp>.txt`. -/
def outputFileName (clock : Clock) : String :=
  "workflow_outputs_" ++ clock.fileStamp ++ ".txt"

/-- The `print_summary` method: prints the narrative and all five stored
outputs, then writes the timestamped output file. Each dict access may raise
`KeyError`; the prints already emitted before a raise are kept in the trace. -/
def print_summary (cfg : Config) (outputs : Outputs) (clock : Clock) :
    Trace × Except String Unit :=
  match outputs.lookup "research" with
  | none =>
    ({ calls := [],
       prints := summaryHeaderPrints ++
         ["\n" ++ dash80, "PHASE 1: MARKET RESEARCH (Full Output)", dash80],
       files := [] }, Except.error "\x27research\x27")
  | some research =>
    match outputs.lookup "analysis" with
    | none =>
      ({ calls := [],
         prints := summaryHeaderPrints ++
           consoleSection "PHASE 1: MARKET RESEARCH (Full Output)" research ++
           ["\n" ++ dash80, "PHASE 2: OPPORTUNITY ANALYSIS (Full Output)", dash80],
         files := [] }, Except.error "\x27analysis\x27")
    | some analysis =>
      match outputs.lookup "blueprint" with
      | none =>
        ({ calls := [],
           prints := summaryHeaderPrints ++
             consoleSection "PHASE 1: MARKET RESEARCH (Full Output)" research ++
             consoleSection "PHASE 2: OPPORTUNITY ANALYSIS (Full Output)" analysis ++
             ["\n" ++ dash80, "PHASE 3: PRODUCT BLUEPRINT (Full Output)", dash80],
           files := [] }, Except.error "\x27blueprint\x27")
      | some blueprint =>
        match outputs.lookup "launch" with
        | none =>
          ({ calls := [],
             prints := summaryHeaderPrints ++
               consoleSection "PHASE 1: MARKET RESEARCH (Full Output)" research ++
               consoleSection "PHASE 2: OPPORTUNITY ANALYSIS (Full Output)" analysis ++
               consoleSection "PHASE 3: PRODUCT BLUEPRINT (Full Output)" blueprint ++
               ["\n" ++ dash80, "PHASE 4: GO-TO-MARKET STRATEGY (Full Output)", dash80],
             files := [] }, Except.error "\x27launch\x27")
        | some launch =>
          match outputs.lookup "review" with
          | none =>
            ({ calls := [],
               prints := summaryHeaderPrints ++
                 consoleSection "PHASE 1: MARKET RESEARCH (Full Output)" research ++
                 consoleSection "PHASE 2: OPPORTUNITY ANALYSIS (Full Output)" analysis ++
                 consoleSection "PHASE 3: PRODUCT BLUEPRINT (Full Output)" blueprint ++
                 consoleSection "PHASE 4: GO-TO-MARKET STRATEGY (Full Output)" launch ++
                 ["\n" ++ dash80, "PHASE 5: STRATEGIC REVIEW (Full Output)", dash80],
               files := [] }, Except.error "\x27review\x27")
          | some review =>
            ({ calls := [],
               prints := summaryHeaderPrints ++
                 consoleSection "PHASE 1: MARKET RESEARCH (Full Output)" research ++
                 consoleSection "PHASE 2: OPPORTUNITY ANALYSIS (Full Output)" analysis ++
                 consoleSection "PHASE 3: PRODUCT BLUEPRINT (Full Output)" blueprint ++
                 consoleSection "PHASE 4: GO-TO-MARKET STRATEGY (Full Output)" launch ++
                 consoleSection "PHASE 5: STRATEGIC REVIEW (Full Output)" review ++
                 ["\n💾 Full results saved to: " ++ outputFileName clock,
                  "\nEnd Time: " ++ clock.endTime, eq80],
               files := [(outputFileName clock,
                          fileContents cfg clock research analysis blueprint launch review)] },
             Except.ok ())

/-- The five lines `run` prints before phase 1. -/
def runHeader (cfg : Config) (clock : Clock) : List String :=
  ["\n" ++ eq80, "AUTOGEN INTERVIEW PLATFORM WORKFLOW - SIMPLIFIED DEMO", eq80,
   "Start Time: " ++ clock.startTime, "Model: " ++ cfg.OPENAI_MODEL ++ "\n"]

/-- The `run` method: executes the five phases in order starting from the empty
outputs dict, then `print_summary`. The first raised exception propagates:
later phases and the summary do not execute, and only effects that already
happened stay in the trace. -/
def run (cfg : Config) (oracle : Oracle) (clock : Clock) :
    Trace × Except String Outputs :=
  let t0 : Trace := { calls := [], prints := runHeader cfg clock, files := [] }
  let p1 := phase_research cfg oracle []
  match p1.2 with
  | Except.error e => (t0.app p1.1, Except.error e)
  | Except.ok o1 =>
    let p2 := phase_analysis cfg oracle o1
    match p2.2 with
    | Except.error e => ((t0.app p1.1).app p2.1, Except.error e)
    | Except.ok o2 =>
      let p3 := phase_blueprint cfg oracle o2
      match p3.2 with
      | Except.error e => (((t0.app p1.1).app p2.1).app p3.1, Except.error e)
      | Except.ok o3 =>
        let p4 := phase_launch cfg oracle o3
        match p4.2 with
        | Except.error e => ((((t0.app p1.1).app p2.1).app p3.1).app p4.1, Except.error e)
        | Except.ok o4 =>
          let p5 := phase_review cfg oracle o4
          match p5.2 with
          | Except.error e =>
            (((((t0.app p1.1).app p2.1).app p3.1).app p4.1).app p5.1, Except.error e)
          | Except.ok o5 =>
            let p6 := print_summary cfg o5 clock
            match p6.2 with
            | Except.error e =>
              ((((((t0.app p1.1).app p2.1).app p3.1).app p4.1).app p5.1).app p6.1,
               Except.error e)
            | Except.ok _ =>
              ((((((t0.app p1.1).app p2.1).app p3.1).app p4.1).app p5.1).app p6.1,
               Except.ok o5)

/-- How the interpreter terminates: an uncaught `SystemExit(code)` (from
`exit(code)`) makes the process exit with that code; falling off the end of the
script exits with status 0. -/
inductive ExitKind where
  | uncaughtSystemExit (code : Nat)
  | fellOffEnd
  deriving DecidableEq

/-- The process exit status determined by an `ExitKind`. -/
def exitStatus : ExitKind → Nat
  | ExitKind.uncaughtSystemExit c => c
  | ExitKind.fellOffEnd => 0

/-- The error report of the top-level `except Exception` handler: the error
line followed by the fixed five-item troubleshooting list. -/
def troubleshootingPrints (e : String) : List String :=
  ["\n❌ Error during workflow execution: " ++ e,
   "\nTroubleshooting:",
   "1. Verify OPENAI_API_KEY is set in parent directory .env (../.env)",
   "2. Check your API key has sufficient credits",
   "3. Verify internet connection",
   "4. Ensure config.py can access shared_config from parent directory",
   "5. Check OpenAI API status at https://status.openai.com"]

/-- Result of running the script top to bottom: the effect trace, the outcome
of `run` when it was reached, how the process terminated, and whether
`traceback.print_exc()` ran. -/
structure MainResult where
  trace : Trace
  runResult : Option (Except String Outputs)
  exitKind : ExitKind
  tracebackPrinted : Bool

/-- The optional verbose line `__init__` prints after a successful validation. -/
def initPrints (cfg : Config) : List String :=
  if cfg.VERBOSE then
    ["Using " ++ (if cfg.USE_GROQ then "Groq" else "OpenAI") ++
     " API with model: " ++ cfg.DEFAULT_MODEL]
  else []

/-- The `if __name__ == "__main__"` block. `__init__` checks
`Config.validate_setup()`; on failure it prints an error and calls `exit(1)`,
raising `SystemExit`, which `except Exception` does not catch, so the process
exits with status 1 before any request. Otherwise `run()` executes; an
exception from it is caught, the error line, troubleshooting list and traceback
are printed, and the script falls off the end (exit status 0), as it also does
after the success message. -/
def main (cfg : Config) (oracle : Oracle) (clock : Clock) : MainResult :=
  if cfg.validate_setup then
    let p := run cfg oracle clock
    match p.2 with
    | Except.ok _ =>
      { trace := { calls := p.1.calls,
                   prints := initPrints cfg ++ p.1.prints ++
                     ["\n✅ Workflow completed successfully!"],
                   files := p.1.files },
        runResult := some p.2,
        exitKind := ExitKind.fellOffEnd,
        tracebackPrinted := false }
    | Except.error e =>
      { trace := { calls := p.1.calls,
                   prints := initPrints cfg ++ p.1.prints ++ troubleshootingPrints e,
                   files := p.1.files },
        runResult := some p.2,
        exitKind := ExitKind.fellOffEnd,
        tracebackPrinted := true }
  else
    { trace := { calls := [], prints := ["ERROR: Configuration validation failed!"],
                 files := [] },
      runResult := none,
      exitKind := ExitKind.uncaughtSystemExit 1,
      tracebackPrinted := false }

/-- An oracle on which every remote call succeeds, replying `resp r` to `r`. -/
def okOracle (resp : ChatRequest → String) : Oracle := fun r => Except.ok (resp r)

/-- The reply stored for phase 1 in an all-success run. -/
def resResearch (cfg : Config) (resp : ChatRequest → String) : String :=
  resp (reqResearch cfg)

/-- The reply stored for phase 2 in an all-success run. -/
def resAnalysis (cfg : Config) (resp : ChatRequest → String) : String :=
  resp (reqAnalysis cfg (resResearch cfg resp))

/-- The reply stored for phase 3 in an all-success run. -/
def resBlueprint (cfg : Config) (resp : ChatRequest → String) : String :=
  resp (reqBlueprint cfg (resAnalysis cfg resp))

/-- The reply stored for phase 4 in an all-success run. -/
def resLaunch (cfg : Config) (resp : ChatRequest → String) : String :=
  resp (reqLaunch cfg (resBlueprint cfg resp))

/-- The reply stored for phase 5 in an all-success run. -/
def resReview (cfg : Config) (resp : ChatRequest → String) : String :=
  resp (reqReview cfg (resBlueprint cfg resp) (resLaunch cfg resp))

/-- Containment of `sub` in `s` as a verbatim contiguous substring. -/
def strContains (s sub : String) : Prop :=
  ∃ pre post : String, s = pre ++ sub ++ post

/-- The content of the user (second) message of a request. -/
def userContent (r : ChatRequest) : String :=
  (r.messages.map Message.content).getD 1 ""

/-- The content of the system (first) message of a request. -/
def systemContent (r : ChatRequest) : String :=
  (r.messages.map Message.content).getD 0 ""

end AutogenDemo


namespace AutogenDemo

/-- A concrete valid configuration used to instantiate theorems. -/
def cfg0 : Config :=
  { validate_setup := true, API_KEY := "k", API_BASE := "https://api.example",
    OPENAI_MODEL := "gpt-test", DEFAULT_MODEL := "gpt-test", USE_GROQ := false,
    VERBOSE := false, AGENT_TEMPERATURE := 0, AGENT_MAX_TOKENS := 256 }

/-- The same configuration with a failing validation check. -/
def cfgBad : Config := { cfg0 with validate_setup := false }

/-- A concrete clock used to instantiate theorems. -/
def clock0 : Clock :=
  { startTime := "2025-10-12 12:00:00", fileStamp := "20251012_120000",
    generated := "2025-10-12 12:00:05", endTime := "2025-10-12 12:00:06" }

/-- An oracle on which every remote call raises. -/
def failingOracle : Oracle := fun _ => Except.error "boom"

/-- Stubbed responses for the example scenario of the spec: the five phases,
identified by their distinct system prompts, answer "R", "A", "B", "L", "V". -/
def stubResponses : ChatRequest → String := fun r =>
  if systemContent r = researchSystemPrompt then "R"
  else if systemContent r = analysisSystemPrompt then "A"
  else if systemContent r = blueprintSystemPrompt then "B"
  else if systemContent r = launchSystemPrompt then "L"
  else "V"

/-- A constant response function used to instantiate theorems. -/
def constResp : ChatRequest → String := fun _ => "X"

/-- Key-preservation of dict assignment: looking up the assigned key yields the
assigned value. -/
theorem lookup_dictSet_self (d : Outputs) (k v : String) :
    (dictSet d k v).lookup k = some v := by
  induction d with
  | nil => simp [dictSet, List.lookup]
  | cons p rest ih =>
    obtain ⟨a, b⟩ := p
    by_cases hak : a = k
    · subst hak; simp [dictSet, List.lookup]
    · have hka : (k == a) = false := by simp; exact fun hh => hak hh.symm
      simp [dictSet, List.lookup, hak, hka, ih]

theorem lookup_dictSet_ne (d : Outputs) (k v k' : String) (h : k' ≠ k) :
    (dictSet d k v).lookup k' = d.lookup k' := by
  have hkk : (k' == k) = false := by simp [h]
  induction d with
  | nil => simp [dictSet, List.lookup, hkk]
  | cons p rest ih =>
    obtain ⟨a, b⟩ := p
    by_cases hak : a = k
    · subst hak; simp [dictSet, List.lookup, hkk]
    · have haf : (a == k) = false := by simp [hak]
      simp [dictSet, List.lookup, haf, ih]

/-- Exhaustive case analysis of `run` over the outcomes of the five remote
calls: either some phase failed, the requests stop at the failing one and no
file is in the trace, or all five succeeded and exactly one file is written. -/
theorem run_cases (cfg : Config) (oracle : Oracle) (clock : Clock) :
    (∃ e, oracle (reqResearch cfg) = Except.error e ∧
      (run cfg oracle clock).1.calls = [reqResearch cfg] ∧
      (run cfg oracle clock).1.files = [] ∧
      (run cfg oracle clock).2 = Except.error e) ∨
    (∃ s1 e, oracle (reqResearch cfg) = Except.ok s1 ∧
      oracle (reqAnalysis cfg s1) = Except.error e ∧
      (run cfg oracle clock).1.calls = [reqResearch cfg, reqAnalysis cfg s1] ∧
      (run cfg oracle clock).1.files = [] ∧
      (run cfg oracle clock).2 = Except.error e) ∨
    (∃ s1 s2 e, oracle (reqResearch cfg) = Except.ok s1 ∧
      oracle (reqAnalysis cfg s1) = Except.ok s2 ∧
      oracle (reqBlueprint cfg s2) = Except.error e ∧
      (run cfg oracle clock).1.calls =
        [reqResearch cfg, reqAnalysis cfg s1, reqBlueprint cfg s2] ∧
      (run cfg oracle clock).1.files = [] ∧
      (run cfg oracle clock).2 = Except.error e) ∨
    (∃ s1 s2 s3 e, oracle (reqResearch cfg) = Except.ok s1 ∧
      oracle (reqAnalysis cfg s1) = Except.ok s2 ∧
      oracle (reqBlueprint cfg s2) = Except.ok s3 ∧
      oracle (reqLaunch cfg s3) = Except.error e ∧
      (run cfg oracle clock).1.calls =
        [reqResearch cfg, reqAnalysis cfg s1, reqBlueprint cfg s2, reqLaunch cfg s3] ∧
      (run cfg oracle clock).1.files = [] ∧
      (run cfg oracle clock).2 = Except.error e) ∨
    (∃ s1 s2 s3 s4 e, oracle (reqResearch cfg) = Except.ok s1 ∧
      oracle (reqAnalysis cfg s1) = Except.ok s2 ∧
      oracle (reqBlueprint cfg s2) = Except.ok s3 ∧
      oracle (reqLaunch cfg s3) = Except.ok s4 ∧
      oracle (reqReview cfg s3 s4) = Except.error e ∧
      (run cfg oracle clock).1.calls =
        [reqResearch cfg, reqAnalysis cfg s1, reqBlueprint cfg s2, reqLaunch cfg s3,
         reqReview cfg s3 s4] ∧
      (run cfg oracle clock).1.files = [] ∧
      (run cfg oracle clock).2 = Except.error e) ∨
    (∃ s1 s2 s3 s4 s5, oracle (reqResearch cfg) = Except.ok s1 ∧
      oracle (reqAnalysis cfg s1) = Except.ok s2 ∧
      oracle (reqBlueprint cfg s2) = Except.ok s3 ∧
      oracle (reqLaunch cfg s3) = Except.ok s4 ∧
      oracle (reqReview cfg s3 s4) = Except.ok s5 ∧
      (run cfg oracle clock).1.calls =
        [reqResearch cfg, reqAnalysis cfg s1, reqBlueprint cfg s2, reqLaunch cfg s3,
         reqReview cfg s3 s4] ∧
      (run cfg oracle clock).1.files =
        [(outputFileName clock, fileContents cfg clock s1 s2 s3 s4 s5)] ∧
      (run cfg oracle clock).2 =
        Except.ok [("research", s1), ("analysis", s2), ("blueprint", s3),
                   ("launch", s4), ("review", s5)]) := by
  cases h1 : oracle (reqResearch cfg) with
  | error e =>
    refine Or.inl ⟨e, ?_, ?_, ?_, ?_⟩ <;>
      simp [run, phase_research, h1, Trace.app]
  | ok s1 =>
    cases h2 : oracle (reqAnalysis cfg s1) with
    | error e =>
      refine Or.inr (Or.inl ⟨s1, e, ?_, ?_, ?_, ?_, ?_⟩) <;>
        simp [run, phase_research, phase_analysis, List.lookup, h1, h2, Trace.app, dictSet]
    | ok s2 =>
      cases h3 : oracle (reqBlueprint cfg s2) with
      | error e =>
        refine Or.inr (Or.inr (Or.inl ⟨s1, s2, e, ?_, ?_, ?_, ?_, ?_, ?_⟩)) <;>
          simp [run, phase_research, phase_analysis, phase_blueprint, List.lookup,
                h1, h2, h3, Trace.app, dictSet]
      | ok s3 =>
        cases h4 : oracle (reqLaunch cfg s3) with
        | error e =>
          refine Or.inr (Or.inr (Or.inr (Or.inl ⟨s1, s2, s3, e,
            ?_, ?_, ?_, ?_, ?_, ?_, ?_⟩))) <;>
            simp [run, phase_research, phase_analysis, phase_blueprint, phase_launch,
                  List.lookup, h1, h2, h3, h4, Trace.app, dictSet]
        | ok s4 =>
          cases h5 : oracle (reqReview cfg s3 s4) with
          | error e =>
            refine Or.inr (Or.inr (Or.inr (Or.inr (Or.inl ⟨s1, s2, s3, s4, e,
              ?_, ?_, ?_, ?_, ?_, ?_, ?_, ?_⟩)))) <;>
              simp [run, phase_research, phase_analysis, phase_blueprint, phase_launch,
                    phase_review, List.lookup, h1, h2, h3, h4, h5, Trace.app, dictSet]
          | ok s5 =>
            refine Or.inr (Or.inr (Or.inr (Or.inr (Or.inr ⟨s1, s2, s3, s4, s5,
              ?_, ?_, ?_, ?_, ?_, ?_, ?_, ?_⟩)))) <;>
              simp [run, phase_research, phase_analysis, phase_blueprint, phase_launch,
                    phase_review, print_summary, List.lookup, h1, h2, h3, h4, h5,
                    Trace.app, dictSet]

end AutogenDemo

namespace AutogenDemo

/-- C1: Context-passing invariant. In a run in which every remote call
succeeds, exactly five requests are sent; the analysis request's user message
contains the stored research output verbatim, the blueprint request's user
message contains the stored analysis output, the launch request's user message
contains the stored blueprint output, and the review request's user message
contains both the stored blueprint and the stored launch output. -/
theorem c1_context_passing (cfg : Config) (resp : ChatRequest → String) (clock : Clock) :
    ∃ out : Outputs, (run cfg (okOracle resp) clock).2 = Except.ok out ∧
      ∃ c1 c2 c3 c4 c5 : ChatRequest,
        (run cfg (okOracle resp) clock).1.calls = [c1, c2, c3, c4, c5] ∧
        out.lookup "research" = some (resResearch cfg resp) ∧
        out.lookup "analysis" = some (resAnalysis cfg resp) ∧
        out.lookup "blueprint" = some (resBlueprint cfg resp) ∧
        out.lookup "launch" = some (resLaunch cfg resp) ∧
        strContains (userContent c2) (resResearch cfg resp) ∧
        strContains (userContent c3) (resAnalysis cfg resp) ∧
        strContains (userContent c4) (resBlueprint cfg resp) ∧
        strContains (userContent c5) (resBlueprint cfg resp) ∧
        strContains (userContent c5) (resLaunch cfg resp) := by
  refine ⟨_, rfl, reqResearch cfg, reqAnalysis cfg (resResearch cfg resp),
    reqBlueprint cfg (resAnalysis cfg resp), reqLaunch cfg (resBlueprint cfg resp),
    reqReview cfg (resBlueprint cfg resp) (resLaunch cfg resp),
    rfl, rfl, rfl, rfl, rfl, ?_, ?_, ?_, ?_, ?_⟩
  · exact ⟨"Market research findings:\n",
      "\n\nNow identify market opportunities and gaps.", rfl⟩
  · exact ⟨"Market Analysis:\n", "\n\nCreate a product blueprint for our platform.", rfl⟩
  · exact ⟨"Product Blueprint:\n", "\n\nCreate a go-to-market plan for launch.", rfl⟩
  · refine ⟨"Product Blueprint:\n",
      "\n\nLaunch Plan:\n" ++ resLaunch cfg resp ++
        "\n\nProvide strategic review and recommendations.", ?_⟩
    simp [userContent, reqReview, mkRequest, reviewUserMessage, String.append_assoc]
  · exact ⟨"Product Blueprint:\n" ++ resBlueprint cfg resp ++ "\n\nLaunch Plan:\n",
      "\n\nProvide strategic review and recommendations.", rfl⟩

/-- C2: With a valid configuration and every remote call succeeding, the
workflow issues exactly the five phase requests in the fixed order research,
analysis, blueprint, launch, review, and run() succeeds with an output mapping
holding exactly five entries, one per phase name, in that order. -/
theorem c2_run_five_phases_in_order (cfg : Config) (resp : ChatRequest → String)
    (clock : Clock) (hvalid : cfg.validate_setup = true) :
    ∃ out : Outputs,
      (main cfg (okOracle resp) clock).runResult = some (Except.ok out) ∧
      (run cfg (okOracle resp) clock).1.calls =
        [reqResearch cfg, reqAnalysis cfg (resResearch cfg resp),
         reqBlueprint cfg (resAnalysis cfg resp), reqLaunch cfg (resBlueprint cfg resp),
         reqReview cfg (resBlueprint cfg resp) (resLaunch cfg resp)] ∧
      out.map Prod.fst = ["research", "analysis", "blueprint", "launch", "review"] := by
  refine ⟨[("research", resResearch cfg resp), ("analysis", resAnalysis cfg resp),
    ("blueprint", resBlueprint cfg resp), ("launch", resLaunch cfg resp),
    ("review", resReview cfg resp)], ?_, rfl, rfl⟩
  simp only [main, hvalid, if_true]
  rfl

/-- Witness for C2 at a concrete configuration, clock and response function. -/
theorem c2_run_five_phases_in_order_witness :
    ∃ out : Outputs,
      (main cfg0 (okOracle constResp) clock0).runResult = some (Except.ok out) ∧
      (run cfg0 (okOracle constResp) clock0).1.calls =
        [reqResearch cfg0, reqAnalysis cfg0 (resResearch cfg0 constResp),
         reqBlueprint cfg0 (resAnalysis cfg0 constResp),
         reqLaunch cfg0 (resBlueprint cfg0 constResp),
         reqReview cfg0 (resBlueprint cfg0 constResp) (resLaunch cfg0 constResp)] ∧
      out.map Prod.fst = ["research", "analysis", "blueprint", "launch", "review"] :=
  c2_run_five_phases_in_order cfg0 constResp clock0 rfl

/-- C3: If the remote call of some phase raises, no file at all is in the
trace (so no stored output reaches a file), at most the five requests were
issued, and every request except the failing last one succeeded: no later
phase executes after a failure. -/
theorem c3_phase_failure_stops_run (cfg : Config) (oracle : Oracle) (clock : Clock)
    (e : String) (hfail : (run cfg oracle clock).2 = Except.error e) :
    (run cfg oracle clock).1.files = [] ∧
    (run cfg oracle clock).1.calls.length ≤ 5 ∧
    ∀ c ∈ (run cfg oracle clock).1.calls.dropLast, ∃ s, oracle c = Except.ok s := by
  rcases run_cases cfg oracle clock with
    ⟨e', h1, hc, hf, hr⟩ | ⟨s1, e', h1, h2, hc, hf, hr⟩ |
    ⟨s1, s2, e', h1, h2, h3, hc, hf, hr⟩ |
    ⟨s1, s2, s3, e', h1, h2, h3, h4, hc, hf, hr⟩ |
    ⟨s1, s2, s3, s4, e', h1, h2, h3, h4, h5, hc, hf, hr⟩ |
    ⟨s1, s2, s3, s4, s5, h1, h2, h3, h4, h5, hc, hf, hr⟩
  · refine ⟨hf, by simp [hc], ?_⟩
    rw [hc]; intro c hcm; simp at hcm
  · refine ⟨hf, by simp [hc], ?_⟩
    rw [hc]; intro c hcm; simp [List.dropLast] at hcm
    exact hcm ▸ ⟨s1, h1⟩
  · refine ⟨hf, by simp [hc], ?_⟩
    rw [hc]; intro c hcm; simp [List.dropLast] at hcm
    rcases hcm with rfl | rfl
    · exact ⟨s1, h1⟩
    · exact ⟨s2, h2⟩
  · refine ⟨hf, by simp [hc], ?_⟩
    rw [hc]; intro c hcm; simp [List.dropLast] at hcm
    rcases hcm with rfl | rfl | rfl
    · exact ⟨s1, h1⟩
    · exact ⟨s2, h2⟩
    · exact ⟨s3, h3⟩
  · refine ⟨hf, by simp [hc], ?_⟩
    rw [hc]; intro c hcm; simp [List.dropLast] at hcm
    rcases hcm with rfl | rfl | rfl | rfl
    · exact ⟨s1, h1⟩
    · exact ⟨s2, h2⟩
    · exact ⟨s3, h3⟩
    · exact ⟨s4, h4⟩
  · rw [hr] at hfail; exact absurd hfail (by simp)

/-- Witness for C3: the fully failing oracle raises at phase 1. -/
theorem c3_phase_failure_stops_run_witness :
    (run cfg0 failingOracle clock0).1.files = [] ∧
    (run cfg0 failingOracle clock0).1.calls.length ≤ 5 ∧
    ∀ c ∈ (run cfg0 failingOracle clock0).1.calls.dropLast,
      ∃ s, failingOracle c = Except.ok s :=
  c3_phase_failure_stops_run cfg0 failingOracle clock0 "boom" rfl

set_option maxRecDepth 4000 in
/-- C4: Round-trip of phase texts with the stubbed responses "R", "A", "B",
"L", "V": the stored outputs are exactly those five texts keyed by phase, the
generated file holds the five labeled sections in phase order with those
bodies (the expected text spelled out explicitly), and each body was also printed to the
console. -/
theorem c4_file_roundtrip_stubbed :
    (run cfg0 (okOracle stubResponses) clock0).2 =
      Except.ok [("research", "R"), ("analysis", "A"), ("blueprint", "B"),
                 ("launch", "L"), ("review", "V")] ∧
    (run cfg0 (okOracle stubResponses) clock0).1.files =
      [("workflow_outputs_20251012_120000.txt",
        repChar 80 '=' ++ "\nAUTOGEN INTERVIEW PLATFORM WORKFLOW - FULL RESULTS\n" ++
        repChar 80 '=' ++ "\nGenerated: 2025-10-12 12:00:05\nModel: gpt-test\n\n" ++
        "\n" ++ repChar 80 '-' ++ "\nPHASE 1: MARKET RESEARCH\n" ++
          repChar 80 '-' ++ "\nR\n" ++
        "\n" ++ repChar 80 '-' ++ "\nPHASE 2: OPPORTUNITY ANALYSIS\n" ++
          repChar 80 '-' ++ "\nA\n" ++
        "\n" ++ repChar 80 '-' ++ "\nPHASE 3: PRODUCT BLUEPRINT\n" ++
          repChar 80 '-' ++ "\nB\n" ++
        "\n" ++ repChar 80 '-' ++ "\nPHASE 4: GO-TO-MARKET STRATEGY\n" ++
          repChar 80 '-' ++ "\nL\n" ++
        "\n" ++ repChar 80 '-' ++ "\nPHASE 5: STRATEGIC REVIEW\n" ++
          repChar 80 '-' ++ "\nV\n")] ∧
    "R" ∈ (run cfg0 (okOracle stubResponses) clock0).1.prints ∧
    "A" ∈ (run cfg0 (okOracle stubResponses) clock0).1.prints ∧
    "B" ∈ (run cfg0 (okOracle stubResponses) clock0).1.prints ∧
    "L" ∈ (run cfg0 (okOracle stubResponses) clock0).1.prints ∧
    "V" ∈ (run cfg0 (okOracle stubResponses) clock0).1.prints := by
  refine ⟨rfl, rfl, ?_, ?_, ?_, ?_, ?_⟩ <;> decide

/-- C5: If configuration validation fails, zero remote calls are made and the
run is never reached: the process aborts during initialization. -/
theorem c5_invalid_config_zero_calls (cfg : Config) (oracle : Oracle) (clock : Clock)
    (hbad : cfg.validate_setup = false) :
    (main cfg oracle clock).trace.calls = [] ∧
    (main cfg oracle clock).runResult = none := by
  simp [main, hbad]

/-- Witness for C5 at the concrete invalid configuration. -/
theorem c5_invalid_config_zero_calls_witness :
    (main cfgBad failingOracle clock0).trace.calls = [] ∧
    (main cfgBad failingOracle clock0).runResult = none :=
  c5_invalid_config_zero_calls cfgBad failingOracle clock0 rfl

/-- C6 counterexample: a run whose first remote call raises is a failure
during workflow execution, yet the process exit status is 0, not a non-zero
failure indication: the top-level handler catches the exception, prints the
diagnostics and falls off the end of the script. -/
theorem c6_nonzero_exit_counterexample :
    (run cfg0 failingOracle clock0).2 = Except.error "boom" ∧
    exitStatus (main cfg0 failingOracle clock0).exitKind = 0 := ⟨rfl, rfl⟩

/-- C6 as amended: on the success path the process prints the confirmation and
exits with status 0; on a failure during workflow execution it prints the
error line, the fixed five-item troubleshooting list and the traceback, and
then also terminates normally with exit status 0 (the handler does not
re-raise or set a non-zero exit code). -/
theorem c6_exit_behavior_amended (cfg : Config) (oracle : Oracle) (clock : Clock)
    (hvalid : cfg.validate_setup = true) :
    ((∃ out, (run cfg oracle clock).2 = Except.ok out) →
      "\n✅ Workflow completed successfully!" ∈ (main cfg oracle clock).trace.prints ∧
      exitStatus (main cfg oracle clock).exitKind = 0) ∧
    (∀ e, (run cfg oracle clock).2 = Except.error e →
      (∀ line ∈ troubleshootingPrints e, line ∈ (main cfg oracle clock).trace.prints) ∧
      (main cfg oracle clock).tracebackPrinted = true ∧
      (main cfg oracle clock).exitKind = ExitKind.fellOffEnd ∧
      exitStatus (main cfg oracle clock).exitKind = 0) := by
  constructor
  · rintro ⟨out, hok⟩
    constructor <;> simp [main, hvalid, hok, exitStatus]
  · intro e herr
    refine ⟨?_, by simp [main, hvalid, herr], by simp [main, hvalid, herr],
      by simp [main, hvalid, herr, exitStatus]⟩
    intro line hl
    simp [main, hvalid, herr]
    tauto

/-- Witness for the amended C6: with the failing oracle the process prints the
traceback and exits with status 0. -/
theorem c6_exit_behavior_amended_witness :
    exitStatus (main cfg0 failingOracle clock0).exitKind = 0 ∧
    (main cfg0 failingOracle clock0).tracebackPrinted = true := by
  have h := c6_exit_behavior_amended cfg0 failingOracle clock0 rfl
  exact ⟨(h.2 "boom" rfl).2.2.2, (h.2 "boom" rfl).2.1⟩

/-- C7: In an all-success run exactly one file is written, named
workflow_outputs_<timestamp>.txt from the current timestamp, and its contents
are the fixed header (title banner, generation timestamp, model name) followed
by the five sections, each a banner of dashes, the phase title, another
banner, and that phase's full output text. -/
theorem c7_output_file_name_and_layout (cfg : Config) (resp : ChatRequest → String)
    (clock : Clock) :
    (run cfg (okOracle resp) clock).1.files =
      [("workflow_outputs_" ++ clock.fileStamp ++ ".txt",
        eq80 ++ "\n" ++ "AUTOGEN INTERVIEW PLATFORM WORKFLOW - FULL RESULTS\n" ++
        eq80 ++ "\n" ++ "Generated: " ++ clock.generated ++ "\n" ++
        "Model: " ++ cfg.OPENAI_MODEL ++ "\n\n" ++
        fileSection "PHASE 1: MARKET RESEARCH" (resResearch cfg resp) ++
        fileSection "PHASE 2: OPPORTUNITY ANALYSIS" (resAnalysis cfg resp) ++
        fileSection "PHASE 3: PRODUCT BLUEPRINT" (resBlueprint cfg resp) ++
        fileSection "PHASE 4: GO-TO-MARKET STRATEGY" (resLaunch cfg resp) ++
        fileSection "PHASE 5: STRATEGIC REVIEW" (resReview cfg resp))] := rfl

end AutogenDemo

namespace AutogenDemo

/-- C8: Frame property of the output mapping. Each phase function, when it
succeeds, performs exactly one dict assignment, keyed by its own phase name
(so that key maps to the reply and every other key is unchanged); and in a
normal all-success run the final mapping's keys are the five distinct phase
names, so no entry was ever overwritten. -/
theorem c8_frame_write_once (cfg : Config) (oracle : Oracle) (o : Outputs)
    (resp : ChatRequest → String) (clock : Clock) :
    (∀ t o', phase_research cfg oracle o = (t, Except.ok o') →
      (∃ s, o' = dictSet o "research" s ∧ o'.lookup "research" = some s) ∧
      ∀ k, k ≠ "research" → o'.lookup k = o.lookup k) ∧
    (∀ t o', phase_analysis cfg oracle o = (t, Except.ok o') →
      (∃ s, o' = dictSet o "analysis" s ∧ o'.lookup "analysis" = some s) ∧
      ∀ k, k ≠ "analysis" → o'.lookup k = o.lookup k) ∧
    (∀ t o', phase_blueprint cfg oracle o = (t, Except.ok o') →
      (∃ s, o' = dictSet o "blueprint" s ∧ o'.lookup "blueprint" = some s) ∧
      ∀ k, k ≠ "blueprint" → o'.lookup k = o.lookup k) ∧
    (∀ t o', phase_launch cfg oracle o = (t, Except.ok o') →
      (∃ s, o' = dictSet o "launch" s ∧ o'.lookup "launch" = some s) ∧
      ∀ k, k ≠ "launch" → o'.lookup k = o.lookup k) ∧
    (∀ t o', phase_review cfg oracle o = (t, Except.ok o') →
      (∃ s, o' = dictSet o "review" s ∧ o'.lookup "review" = some s) ∧
      ∀ k, k ≠ "review" → o'.lookup k = o.lookup k) ∧
    (∃ out, (run cfg (okOracle resp) clock).2 = Except.ok out ∧
      out.map Prod.fst = ["research", "analysis", "blueprint", "launch", "review"] ∧
      (out.map Prod.fst).Nodup) := by
  refine ⟨?_, ?_, ?_, ?_, ?_,
    ⟨[("research", resResearch cfg resp), ("analysis", resAnalysis cfg resp),
      ("blueprint", resBlueprint cfg resp), ("launch", resLaunch cfg resp),
      ("review", resReview cfg resp)], rfl, rfl,
      show (["research", "analysis", "blueprint", "launch", "review"] :
        List String).Nodup by decide⟩⟩
  · intro t o' h
    cases ho : oracle (reqResearch cfg) with
    | error e => simp [phase_research, ho] at h
    | ok s =>
      simp only [phase_research, ho, Prod.mk.injEq, Except.ok.injEq] at h
      obtain ⟨-, h2⟩ := h
      subst h2
      exact ⟨⟨s, rfl, lookup_dictSet_self o "research" s⟩,
        fun k hk => lookup_dictSet_ne o "research" s k hk⟩
  · intro t o' h
    cases hl : o.lookup "research" with
    | none => simp [phase_analysis, hl] at h
    | some research =>
      cases ho : oracle (reqAnalysis cfg research) with
      | error e => simp [phase_analysis, hl, ho] at h
      | ok s =>
        simp only [phase_analysis, hl, ho, Prod.mk.injEq, Except.ok.injEq] at h
        obtain ⟨-, h2⟩ := h
        subst h2
        exact ⟨⟨s, rfl, lookup_dictSet_self o "analysis" s⟩,
          fun k hk => lookup_dictSet_ne o "analysis" s k hk⟩
  · intro t o' h
    cases hl : o.lookup "analysis" with
    | none => simp [phase_blueprint, hl] at h
    | some analysis =>
      cases ho : oracle (reqBlueprint cfg analysis) with
      | error e => simp [phase_blueprint, hl, ho] at h
      | ok s =>
        simp only [phase_blueprint, hl, ho, Prod.mk.injEq, Except.ok.injEq] at h
        obtain ⟨-, h2⟩ := h
        subst h2
        exact ⟨⟨s, rfl, lookup_dictSet_self o "blueprint" s⟩,
          fun k hk => lookup_dictSet_ne o "blueprint" s k hk⟩
  · intro t o' h
    cases hl : o.lookup "blueprint" with
    | none => simp [phase_launch, hl] at h
    | some blueprint =>
      cases ho : oracle (reqLaunch cfg blueprint) with
      | error e => simp [phase_launch, hl, ho] at h
      | ok s =>
        simp only [phase_launch, hl, ho, Prod.mk.injEq, Except.ok.injEq] at h
        obtain ⟨-, h2⟩ := h
        subst h2
        exact ⟨⟨s, rfl, lookup_dictSet_self o "launch" s⟩,
          fun k hk => lookup_dictSet_ne o "launch" s k hk⟩
  · intro t o' h
    cases hl : o.lookup "blueprint" with
    | none => simp [phase_review, hl] at h
    | some blueprint =>
      cases hl2 : o.lookup "launch" with
      | none => simp [phase_review, hl, hl2] at h
      | some launch =>
        cases ho : oracle (reqReview cfg blueprint launch) with
        | error e => simp [phase_review, hl, hl2, ho] at h
        | ok s =>
          simp only [phase_review, hl, hl2, ho, Prod.mk.injEq, Except.ok.injEq] at h
          obtain ⟨-, h2⟩ := h
          subst h2
          exact ⟨⟨s, rfl, lookup_dictSet_self o "review" s⟩,
            fun k hk => lookup_dictSet_ne o "review" s k hk⟩

/-- Witness for C8: phase 1 run on the empty dict stores exactly its own key. -/
theorem c8_frame_write_once_witness :
    (∃ s, ([("research", "X")] : Outputs) = dictSet [] "research" s ∧
      ([("research", "X")] : Outputs).lookup "research" = some s) ∧
    ∀ k, k ≠ "research" →
      ([("research", "X")] : Outputs).lookup k = ([] : Outputs).lookup k :=
  (c8_frame_write_once cfg0 (okOracle constResp) [] constResp clock0).1 _ _ rfl

/-- C9: Every remote call issued in any run carries exactly two messages, the
first tagged system and the second tagged user, and always the same model
identifier, temperature and max-tokens values taken from the configuration. -/
theorem c9_call_shape_invariant (cfg : Config) (oracle : Oracle) (clock : Clock)
    (r : ChatRequest) (hmem : r ∈ (run cfg oracle clock).1.calls) :
    r.model = cfg.OPENAI_MODEL ∧ r.temperature = cfg.AGENT_TEMPERATURE ∧
    r.max_tokens = cfg.AGENT_MAX_TOKENS ∧
    r.messages.map Message.role = ["system", "user"] := by
  have base : ∀ sp um : String,
      (mkRequest cfg sp um).model = cfg.OPENAI_MODEL ∧
      (mkRequest cfg sp um).temperature = cfg.AGENT_TEMPERATURE ∧
      (mkRequest cfg sp um).max_tokens = cfg.AGENT_MAX_TOKENS ∧
      (mkRequest cfg sp um).messages.map Message.role = ["system", "user"] :=
    fun sp um => ⟨rfl, rfl, rfl, rfl⟩
  rcases run_cases cfg oracle clock with
    ⟨e', h1, hc, hf, hr⟩ | ⟨s1, e', h1, h2, hc, hf, hr⟩ |
    ⟨s1, s2, e', h1, h2, h3, hc, hf, hr⟩ |
    ⟨s1, s2, s3, e', h1, h2, h3, h4, hc, hf, hr⟩ |
    ⟨s1, s2, s3, s4, e', h1, h2, h3, h4, h5, hc, hf, hr⟩ |
    ⟨s1, s2, s3, s4, s5, h1, h2, h3, h4, h5, hc, hf, hr⟩ <;>
  · rw [hc] at hmem
    simp only [List.mem_cons, List.not_mem_nil, or_false] at hmem
    rcases hmem with rfl | rfl | rfl | rfl | rfl <;> exact base _ _

/-- Witness for C9 at the phase-1 request of a failing run. -/
theorem c9_call_shape_invariant_witness :
    (reqResearch cfg0).model = cfg0.OPENAI_MODEL ∧
    (reqResearch cfg0).temperature = cfg0.AGENT_TEMPERATURE ∧
    (reqResearch cfg0).max_tokens = cfg0.AGENT_MAX_TOKENS ∧
    (reqResearch cfg0).messages.map Message.role = ["system", "user"] :=
  c9_call_shape_invariant cfg0 failingOracle clock0 (reqResearch cfg0)
    (by exact List.mem_singleton.mpr rfl)

/-- C10: A configuration-validation failure raises SystemExit via exit(1),
which the top-level except Exception handler does not catch: the process exits
with status 1 after printing only the validation error, with no
troubleshooting checklist and no traceback; whereas a failure during the
phases is caught by that handler, which prints the checklist and traceback. -/
theorem c10_config_failure_exit1 (cfg : Config) (oracle : Oracle) (clock : Clock)
    (hbad : cfg.validate_setup = false) :
    (main cfg oracle clock).exitKind = ExitKind.uncaughtSystemExit 1 ∧
    exitStatus (main cfg oracle clock).exitKind = 1 ∧
    (main cfg oracle clock).trace.prints = ["ERROR: Configuration validation failed!"] ∧
    (main cfg oracle clock).tracebackPrinted = false ∧
    "\nTroubleshooting:" ∉ (main cfg oracle clock).trace.prints ∧
    (∀ cfg' : Config, ∀ oracle' : Oracle, ∀ clock' : Clock, ∀ e : String,
      cfg'.validate_setup = true →
      (run cfg' oracle' clock').2 = Except.error e →
      (main cfg' oracle' clock').exitKind = ExitKind.fellOffEnd ∧
      "\nTroubleshooting:" ∈ (main cfg' oracle' clock').trace.prints ∧
      (main cfg' oracle' clock').tracebackPrinted = true) := by
  refine ⟨by simp [main, hbad], by simp [main, hbad, exitStatus],
    by simp [main, hbad], by simp [main, hbad], by simp [main, hbad], ?_⟩
  intro cfg' oracle' clock' e hval herr
  refine ⟨by simp [main, hval, herr], ?_, by simp [main, hval, herr]⟩
  simp [main, hval, herr, troubleshootingPrints]

/-- Witness for C10 at the concrete invalid configuration. -/
theorem c10_config_failure_exit1_witness :
    (main cfgBad failingOracle clock0).exitKind = ExitKind.uncaughtSystemExit 1 ∧
    exitStatus (main cfgBad failingOracle clock0).exitKind = 1 := by
  have h := c10_config_failure_exit1 cfgBad failingOracle clock0 rfl
  exact ⟨h.1, h.2.1⟩

end AutogenDemo
